import Mathlib

/-!
# Verification of the assimp-JSON → polyrhythm.js scene converter

Shallow embedding of `src/AssimpImport.ts` (class `AssimpImport`) and
`src/SceneAnimation.ts` (class `AssimpSceneAnimation`).

Modelling conventions:
* JavaScript numbers carry no arithmetic in this converter beyond the camera
  cross product, so they are modelled exactly as `Rat`.  (The destination
  containers are `Float32Array`s in gl-matrix; that 32-bit storage is outside
  the model — the converter itself only moves values around.)
* A JSON array field that the code guards with `if (x)` before iterating
  (`json.meshes`, `json.lights`, `nodeJson.children`, …) is modelled as a plain
  list: an absent field and an empty array both make the loop body run zero
  times, so they are observationally identical.
* Scalar fields read with `?? 0.0` (`light.angleinnercone`,
  `light.angleoutercone`) are modelled as `Option Rat`.
* Fallible code (`throw new Error(...)`) is modelled with `Except ImportError`.
* Out-of-range JS index reads produce `undefined`; where the code feeds such a
  read into a `Float32Array` slot we model the access with `List.getD _ _ 0`
  (claims about those positions always assume the in-range shape anyway), and
  dynamic JSON values keep an explicit `undefined` constructor.
* The external collaborators — assimpjs (`ConvertFileList`), `TextDecoder` +
  `JSON.parse`, and gl-matrix's `quat.fromMat3` — are opaque: the first is an
  input (`AssimpResult`), the latter two are function parameters.
-/

namespace PolyAssimp

/-- gl-matrix `vec3` over exact rationals. -/
structure Vec3 where
  x : Rat
  y : Rat
  z : Rat
deriving DecidableEq, Repr, Inhabited

/-- gl-matrix `vec3.cross(out, a, b)`: `out = a × b`. -/
def vec3cross (a b : Vec3) : Vec3 :=
  ⟨a.y * b.z - a.z * b.y, a.z * b.x - a.x * b.z, a.x * b.y - a.y * b.x⟩

/-- gl-matrix `quat.fromValues(x, y, z, w)`: components stored in that order. -/
structure Quat where
  x : Rat
  y : Rat
  z : Rat
  w : Rat
deriving DecidableEq, Repr, Inhabited

/-- Model of `vec3.fromValues(l[0], l[1], l[2])` applied to a JSON number array. -/
def vec3fromList (l : List Rat) : Vec3 :=
  ⟨l.getD 0 0, l.getD 1 0, l.getD 2 0⟩

/-- A dynamic JSON value as the material-property code sees it: a number, a
string, a flat number array, or JavaScript `undefined` (the result of an
out-of-range index). -/
inductive JVal where
  | undefined
  | num (v : Rat)
  | str (s : String)
  | arr (xs : List Rat)
deriving DecidableEq, Repr, Inhabited

/-- JS index read `v[i]` on a dynamic value: element of an array (wrapped back
up as a number), `undefined` otherwise. -/
def JVal.item (v : JVal) (i : Nat) : JVal :=
  match v with
  | .arr xs =>
    match xs.get? i with
    | some r => .num r
    | none => .undefined
  | _ => .undefined

/-! ## Source-document shapes (the assimp "assjson" output, typed by usage) -/

/-- One entry of `material.properties`. -/
structure AMatProperty where
  key : String
  value : JVal
deriving DecidableEq, Repr, Inhabited

/-- One entry of `json.materials`. -/
structure AMaterial where
  properties : List AMatProperty
deriving DecidableEq, Repr, Inhabited

/-- One entry of `json.meshes`. -/
structure AMesh where
  name : String
  vertices : List Rat
  normals : List Rat
  faces : List (List Nat)
  materialindex : Nat
deriving DecidableEq, Repr, Inhabited

/-- One entry of `json.lights`. -/
structure ALight where
  name : String
  type : Nat
  diffusecolor : List Rat
  attenuationconstant : Rat
  angleinnercone : Option Rat
  angleoutercone : Option Rat
  attenuationlinear : Rat
  attenuationquadratic : Rat
deriving DecidableEq, Repr, Inhabited

/-- One entry of `json.cameras`. -/
structure ACamera where
  name : String
  clipplanefar : Rat
  clipplanenear : Rat
  horizontalfov : Rat
  up : List Rat
  lookat : List Rat
deriving DecidableEq, Repr, Inhabited

/-- One entry of `animation.channels`.  A key is the 2-element JSON array
`[time, values]`, modelled as a pair. -/
structure AChannel where
  name : String
  positionkeys : List (Rat × List Rat)
  scalingkeys : List (Rat × List Rat)
  rotationkeys : List (Rat × List Rat)
deriving DecidableEq, Repr, Inhabited

/-- One entry of `json.animations`. -/
structure AAnimation where
  name : String
  duration : Rat
  tickspersecond : Rat
  channels : List AChannel
deriving DecidableEq, Repr, Inhabited

/-- A node of the source document (`json.rootnode` and its descendants). -/
inductive ANode where
  | mk (name : String) (transformation : List Rat) (meshes : List Nat)
      (children : List ANode)
deriving Inhabited

def ANode.name : ANode → String
  | .mk n _ _ _ => n

def ANode.transformation : ANode → List Rat
  | .mk _ t _ _ => t

def ANode.meshes : ANode → List Nat
  | .mk _ _ m _ => m

def ANode.children : ANode → List ANode
  | .mk _ _ _ c => c

/-- The whole parsed assjson document, typed by the fields the converter
reads. -/
structure AJson where
  rootnode : ANode
  cameras : List ACamera
  lights : List ALight
  meshes : List AMesh
  materials : List AMaterial
  animations : List AAnimation
deriving Inhabited

/-! ## Destination shapes (the polyrhythmjs scene model, as populated here) -/

structure Vertex where
  position : Vec3
  normal : Vec3
  color : Vec3
deriving DecidableEq, Repr, Inhabited

structure SceneMesh where
  name : String
  vertices : List Vertex
  indices : List Nat
deriving DecidableEq, Repr, Inhabited

/-- Destination material.  `albedo` keeps the three dynamic values fed to
`vec3.fromValues`; `metallic`/`roughness` keep the dynamic value assigned. -/
structure SceneMaterial where
  name : String
  albedo : JVal × JVal × JVal
  metallic : JVal
  roughness : JVal
deriving DecidableEq, Repr, Inhabited

inductive SceneLightType where
  | Directional
  | Point
  | Spot
deriving DecidableEq, Repr, Inhabited

structure SceneLight where
  name : String
  type : SceneLightType
  color : Vec3
  intensity : Rat
  innerConeAngle : Rat
  outerConeAngle : Rat
  range : Rat
  falloff : Rat
deriving DecidableEq, Repr, Inhabited

structure SceneCamera where
  name : String
  nearClipPlane : Rat
  farClipPlane : Rat
  horizontalFov : Rat
  rotation : Quat
deriving DecidableEq, Repr, Inhabited

/-- The `TypedKey<T>` shape: a `{time, value}` animation key. -/
structure TypedKey (α : Type) where
  time : Rat
  value : α
deriving DecidableEq, Repr

structure NodeAnimation where
  name : String
  positionKeys : List (TypedKey Vec3)
  scaleKeys : List (TypedKey Vec3)
  rotationKeys : List (TypedKey Quat)
deriving DecidableEq, Repr, Inhabited

/-- A `{meshIndex, materialIndex}` pair attached to a node. -/
structure NodeMesh where
  meshIndex : Nat
  materialIndex : Nat
deriving DecidableEq, Repr, Inhabited

inductive SceneNode where
  | mk (name : String) (transform : List Rat) (meshes : List NodeMesh)
      (children : List SceneNode)
deriving Inhabited

def SceneNode.name : SceneNode → String
  | .mk n _ _ _ => n

def SceneNode.transform : SceneNode → List Rat
  | .mk _ t _ _ => t

def SceneNode.meshes : SceneNode → List NodeMesh
  | .mk _ _ m _ => m

def SceneNode.children : SceneNode → List SceneNode
  | .mk _ _ _ c => c

/-- Errors thrown by the converter (`throw new Error(...)` sites, named after
the spec's error kinds). -/
inductive ImportError where
  | unknownLightType (code : Nat)
  | conversionError (code : Nat)
deriving DecidableEq, Repr

/-! ## Animation key loaders (`AssimpImport.loadPositionKeys` /
`loadScaleKeys` / `loadRotationKeys`, lines 53–81) -/

/-- Model of `loadPositionKeys`: `{time: key[0], value: vec3.fromValues(key[1][0],
key[1][1], key[1][2])}` for each key. -/
def loadPositionKeys (channel : AChannel) : List (TypedKey Vec3) :=
  channel.positionkeys.map fun key =>
    { time := key.1, value := ⟨key.2.getD 0 0, key.2.getD 1 0, key.2.getD 2 0⟩ }

/-- Model of `loadScaleKeys`: same shape, read from `channel.scalingkeys`. -/
def loadScaleKeys (channel : AChannel) : List (TypedKey Vec3) :=
  channel.scalingkeys.map fun key =>
    { time := key.1, value := ⟨key.2.getD 0 0, key.2.getD 1 0, key.2.getD 2 0⟩ }

/-- Model of `loadRotationKeys`: `{time: key[0], value: quat.fromValues(key[1][1],
key[1][2], key[1][3], key[1][0])}` — the source stores `[w,x,y,z]`, the
destination constructor takes `(x,y,z,w)`. -/
def loadRotationKeys (channel : AChannel) : List (TypedKey Quat) :=
  channel.rotationkeys.map fun key =>
    { time := key.1,
      value := ⟨key.2.getD 1 0, key.2.getD 2 0, key.2.getD 3 0, key.2.getD 0 0⟩ }

/-! ## The animation name index (`AssimpSceneAnimation`, SceneAnimation.ts) -/

/-- JS `Map.prototype.set`: update the value in place when the key is already
present (insertion order kept), append otherwise. -/
def mapSet {α : Type} (m : List (String × α)) (k : String) (v : α) :
    List (String × α) :=
  if m.any (fun p => p.1 == k) then
    m.map fun p => if p.1 == k then (k, v) else p
  else
    m ++ [(k, v)]

/-- JS `Map.prototype.get`, `undefined` (here `none`) when absent. -/
def mapGet {α : Type} (m : List (String × α)) (k : String) : Option α :=
  (m.find? (fun p => p.1 == k)).map (fun p => p.2)

/-- The `AssimpSceneAnimation` object: the four public fields plus the private
`nodeAnimationMap`. -/
structure AssimpSceneAnimation where
  name : String
  durationInTicks : Rat
  ticksPerSecond : Rat
  nodeAnimations : List NodeAnimation
  nodeAnimationMap : List (String × NodeAnimation)
deriving DecidableEq, Repr

/-- The `AssimpSceneAnimation` constructor: stores the fields and fills
`nodeAnimationMap` with `map.set(nodeAnimation.name, nodeAnimation)` for each
record in order. -/
def mkAssimpSceneAnimation (name : String) (durationInTicks ticksPerSecond : Rat)
    (nodeAnimations : List NodeAnimation) : AssimpSceneAnimation :=
  { name, durationInTicks, ticksPerSecond, nodeAnimations,
    nodeAnimationMap :=
      nodeAnimations.foldl (fun m na => mapSet m na.name na) [] }

/-- Model of `getNodeAnimation(name)`: `this.nodeAnimationMap.get(name) || null`
(node-animation records are always truthy, so `|| null` only converts the
absent case). -/
def getNodeAnimation (a : AssimpSceneAnimation) (name : String) :
    Option NodeAnimation :=
  mapGet a.nodeAnimationMap name

/-! ## Animation loaders (`loadNodeAnimations` / `loadSceneAnimations`,
lines 29–51) -/

/-- Model of `loadNodeAnimations`: one `NodeAnimation` per channel. -/
def loadNodeAnimations (animation : AAnimation) : List NodeAnimation :=
  animation.channels.map fun channel =>
    { name := channel.name,
      positionKeys := loadPositionKeys channel,
      scaleKeys := loadScaleKeys channel,
      rotationKeys := loadRotationKeys channel }

/-- Model of `loadSceneAnimations`: one `AssimpSceneAnimation` per animation. -/
def loadSceneAnimations (json : AJson) : List AssimpSceneAnimation :=
  json.animations.map fun animation =>
    mkAssimpSceneAnimation animation.name animation.duration
      animation.tickspersecond (loadNodeAnimations animation)

/-! ## Materials (`loadSceneMaterials`, lines 83–101) -/

/-- One iteration of `loadSceneMaterials`: find each keyed property, fall back
to the documented default, build the destination material.  (`?.value ?? d`
reduces to "found value, else default": parsed JSON never holds
`undefined`.) -/
def loadSceneMaterial (material : AMaterial) : SceneMaterial :=
  let matDiffuse :=
    ((material.properties.find? (fun prop => prop.key == "$clr.diffuse")).map
        (fun prop => prop.value)).getD (.arr [1, 1, 1, 1])
  let matMetallic :=
    ((material.properties.find? (fun prop => prop.key == "$mat.metallicFactor")).map
        (fun prop => prop.value)).getD (.num 0)
  let matRoughness :=
    ((material.properties.find? (fun prop => prop.key == "$mat.roughnessFactor")).map
        (fun prop => prop.value)).getD (.num 0)
  { name := "Material",
    albedo := (matDiffuse.item 0, matDiffuse.item 1, matDiffuse.item 2),
    metallic := matMetallic,
    roughness := matRoughness }

def loadSceneMaterials (json : AJson) : List SceneMaterial :=
  json.materials.map loadSceneMaterial

/-! ## Meshes (`loadSceneMeshes` / `getMeshVertices`, lines 103–133) -/

/-- Model of `getMeshVertices`: the JS loop runs for `i < mesh.vertices.length / 3`
with a possibly fractional bound, i.e. `⌈length / 3⌉` iterations, modelled as
`(length + 2) / 3` in `Nat`.  Color is hardcoded white. -/
def getMeshVertices (mesh : AMesh) : List Vertex :=
  (List.range ((mesh.vertices.length + 2) / 3)).map fun i =>
    { position := ⟨mesh.vertices.getD (i * 3) 0, mesh.vertices.getD (i * 3 + 1) 0,
        mesh.vertices.getD (i * 3 + 2) 0⟩,
      normal := ⟨mesh.normals.getD (i * 3) 0, mesh.normals.getD (i * 3 + 1) 0,
        mesh.normals.getD (i * 3 + 2) 0⟩,
      color := ⟨1, 1, 1⟩ }

/-- One iteration of `loadSceneMeshes`: `indices = faces.flat()` (depth-1
flattening = concatenation in face order). -/
def loadSceneMesh (mesh : AMesh) : SceneMesh :=
  { name := mesh.name, vertices := getMeshVertices mesh,
    indices := mesh.faces.flatten }

def loadSceneMeshes (json : AJson) : List SceneMesh :=
  json.meshes.map loadSceneMesh

/-! ## Lights (`loadSceneLights` / `getLightType`, lines 135–167) -/

/-- Model of `getLightType`: the `switch` maps codes 1/2/3; anything else throws
`Unknown light type: ...`. -/
def getLightType (type : Nat) : Except ImportError SceneLightType :=
  if type = 1 then .ok .Directional
  else if type = 2 then .ok .Point
  else if type = 3 then .ok .Spot
  else .error (.unknownLightType type)

/-- One iteration of `loadSceneLights`. -/
def loadSceneLight (light : ALight) : Except ImportError SceneLight := do
  let type ← getLightType light.type
  pure
    { name := light.name,
      type,
      color := vec3fromList light.diffusecolor,
      intensity := light.attenuationconstant,
      innerConeAngle := light.angleinnercone.getD 0,
      outerConeAngle := light.angleoutercone.getD 0,
      range := light.attenuationlinear,
      falloff := light.attenuationquadratic }

/-- Model of `[...this.loadSceneLights(json)]`: the generator is forced eagerly in
order; the first bad light type aborts with the thrown error. -/
def loadSceneLights (json : AJson) : Except ImportError (List SceneLight) :=
  json.lights.mapM loadSceneLight

/-! ## Cameras (`loadSceneCameras`, lines 169–194) -/

/-- The flat 9-element argument list the code hands to `mat3.fromValues`
(lines 179–183): `right = up × lookAt`, then
`fromValues(right[0], up[0], lookAt[0], right[1], up[1], lookAt[1],
right[2], up[2], lookAt[2])`, stored in argument order. -/
def cameraRotationMatrix (camera : ACamera) : List Rat :=
  let up := vec3fromList camera.up
  let lookAt := vec3fromList camera.lookat
  let right := vec3cross up lookAt
  [right.x, up.x, lookAt.x, right.y, up.y, lookAt.y, right.z, up.z, lookAt.z]

/-- Column `c` of a gl-matrix `mat3` flat array: gl-matrix is column-major,
entry (row `r`, column `c`) lives at index `c*3 + r`. -/
def mat3col (m : List Rat) (c : Nat) : Vec3 :=
  ⟨m.getD (c * 3) 0, m.getD (c * 3 + 1) 0, m.getD (c * 3 + 2) 0⟩

/-- Row `r` of a gl-matrix `mat3` flat array. -/
def mat3row (m : List Rat) (r : Nat) : Vec3 :=
  ⟨m.getD r 0, m.getD (3 + r) 0, m.getD (6 + r) 0⟩

/-- One iteration of `loadSceneCameras`.  `quat.fromMat3` involves square
roots, so it is an opaque parameter `fromMat3`; the code applies it to the
assembled 3×3 matrix. -/
def loadSceneCamera (fromMat3 : List Rat → Quat) (camera : ACamera) :
    SceneCamera :=
  { name := camera.name,
    nearClipPlane := camera.clipplanenear,
    farClipPlane := camera.clipplanefar,
    horizontalFov := camera.horizontalfov,
    rotation := fromMat3 (cameraRotationMatrix camera) }

def loadSceneCameras (fromMat3 : List Rat → Quat) (json : AJson) :
    List SceneCamera :=
  json.cameras.map (loadSceneCamera fromMat3)

/-! ## Nodes (`loadSceneNode`, lines 196–226) -/

/-- The 16 arguments the code hands `mat4.fromValues` (lines 217–222): read
`transform[0], transform[4], transform[8], transform[12], transform[1], …`,
stored in argument order — the transpose of the row-major source flat
array. -/
def mat4transposed (t : List Rat) : List Rat :=
  [t.getD 0 0, t.getD 4 0, t.getD 8 0, t.getD 12 0,
   t.getD 1 0, t.getD 5 0, t.getD 9 0, t.getD 13 0,
   t.getD 2 0, t.getD 6 0, t.getD 10 0, t.getD 14 0,
   t.getD 3 0, t.getD 7 0, t.getD 11 0, t.getD 15 0]

/-- Model of `loadSceneNode(nodeJson, json)`: the mesh catalog `json.meshes` is passed
so each node-mesh pair can look up `json.meshes[mesh].materialindex`.
(An out-of-range mesh index — a JS crash — is modelled with a default catalog
entry; the claims about this lookup carry an in-range hypothesis.) -/
def loadSceneNode (meshCatalog : List AMesh) : ANode → SceneNode
  | .mk name transformation meshes children =>
    SceneNode.mk name (mat4transposed transformation)
      (meshes.map fun m =>
        { meshIndex := m,
          materialIndex := (meshCatalog.getD m default).materialindex })
      (children.attach.map fun c => loadSceneNode meshCatalog c.1)
termination_by n => sizeOf n
decreasing_by
  have hm := List.sizeOf_lt_of_mem c.2
  simp only [ANode.mk.sizeOf_spec]
  omega

/-! ## The scene walk and the external-parser boundary
(`loadScene` lines 18–27, `getAssimpJson` lines 228–241) -/

structure Scene where
  rootNode : SceneNode
  cameras : List SceneCamera
  lights : List SceneLight
  meshes : List SceneMesh
  materials : List SceneMaterial
  animations : List AssimpSceneAnimation

/-- Lines 20–26 of `loadScene`: walk the parsed document.  Only the light walk
can throw (`UnknownLightTypeError`); all collections are forced eagerly. -/
def loadSceneJson (fromMat3 : List Rat → Quat) (json : AJson) :
    Except ImportError Scene := do
  let rootNode := loadSceneNode json.meshes json.rootnode
  let cameras := loadSceneCameras fromMat3 json
  let lights ← loadSceneLights json
  let meshes := loadSceneMeshes json
  let materials := loadSceneMaterials json
  let animations := loadSceneAnimations json
  pure { rootNode, cameras, lights, meshes, materials, animations }

/-- One output file of the external parser; `content` is its raw bytes. -/
structure AssimpFile where
  content : List Nat
deriving DecidableEq, Repr, Inhabited

/-- What `ConvertFileList` returns: `IsSuccess()`, `GetErrorCode()`, and the
output files (`FileCount()` / `GetFile(i)`). -/
structure AssimpResult where
  isSuccess : Bool
  errorCode : Nat
  files : List AssimpFile
deriving DecidableEq, Repr, Inhabited

/-- Model of `getAssimpJson`: throw `ConversionError` with the parser's error code when
the parser failed or produced no files; otherwise decode + `JSON.parse` the
first output file (the opaque parameter `parseJson`). -/
def getAssimpJson (parseJson : List Nat → AJson) (result : AssimpResult) :
    Except ImportError AJson :=
  if !result.isSuccess || result.files.length == 0 then
    .error (.conversionError result.errorCode)
  else
    .ok (parseJson (result.files.getD 0 default).content)

/-- Model of `loadScene` (line 19 + 20–26): fetch the parsed document from the external
parser, then walk it. -/
def loadScene (fromMat3 : List Rat → Quat) (parseJson : List Nat → AJson)
    (result : AssimpResult) : Except ImportError Scene := do
  let json ← getAssimpJson parseJson result
  loadSceneJson fromMat3 json

/-! # Theorems -/

/-- Unfolding equation for the recursive node walk. -/
theorem loadSceneNode_mk (meshCatalog : List AMesh) (name : String)
    (transformation : List Rat) (meshes : List Nat) (children : List ANode) :
    loadSceneNode meshCatalog (.mk name transformation meshes children)
      = SceneNode.mk name (mat4transposed transformation)
          (meshes.map fun m =>
            { meshIndex := m,
              materialIndex := (meshCatalog.getD m default).materialindex })
          (children.attach.map fun c => loadSceneNode meshCatalog c.1) := by
  simp [loadSceneNode]

/-- C1: a node whose `transformation` is the 16-element row-major sequence
`m0 … m15` is loaded with destination transform
`[m0,m4,m8,m12, m1,m5,m9,m13, m2,m6,m10,m14, m3,m7,m11,m15]` (element
`m[r*4+c]` lands at `transform[c*4+r]`), and transposing the destination back
by columns reproduces the original 16-element input exactly. -/
theorem node_transform_transpose (cat : List AMesh) (nm : String)
    (ms : List Nat) (cs : List ANode)
    (m0 m1 m2 m3 m4 m5 m6 m7 m8 m9 m10 m11 m12 m13 m14 m15 : Rat) :
    (loadSceneNode cat (.mk nm
        [m0, m1, m2, m3, m4, m5, m6, m7, m8, m9, m10, m11, m12, m13, m14, m15]
        ms cs)).transform
      = [m0, m4, m8, m12, m1, m5, m9, m13, m2, m6, m10, m14, m3, m7, m11, m15]
    ∧ mat4transposed (loadSceneNode cat (.mk nm
        [m0, m1, m2, m3, m4, m5, m6, m7, m8, m9, m10, m11, m12, m13, m14, m15]
        ms cs)).transform
      = [m0, m1, m2, m3, m4, m5, m6, m7, m8, m9, m10, m11, m12, m13, m14, m15] := by
  rw [loadSceneNode_mk]
  exact ⟨rfl, rfl⟩

/-- C2 (counterexample): the concrete camera used to refute the claimed
column layout of the rotation basis. -/
def camColumnsCex : ACamera :=
  { name := "cam", clipplanefar := 100, clipplanenear := 1, horizontalfov := 1,
    up := [0, 0, 1], lookat := [1, 0, 0] }

/-- C2 is false as stated: for the camera with `up = (0,0,1)`,
`lookAt = (1,0,0)` the code computes `right = up × lookAt = (0,1,0)`, but
column 0 of the matrix handed to `quat.fromMat3` (gl-matrix stores
column-major, entry (r,c) at index `c*3+r`) is `(0,0,1)`, not the right
vector. -/
theorem camera_basis_columns_counterexample :
    vec3cross (vec3fromList camColumnsCex.up) (vec3fromList camColumnsCex.lookat)
        = ⟨0, 1, 0⟩
    ∧ mat3col (cameraRotationMatrix camColumnsCex) 0 = ⟨0, 0, 1⟩
    ∧ mat3col (cameraRotationMatrix camColumnsCex) 0
        ≠ vec3cross (vec3fromList camColumnsCex.up)
            (vec3fromList camColumnsCex.lookat) := by
  refine ⟨?_, ?_, ?_⟩ <;>
    simp [camColumnsCex, vec3cross, vec3fromList, mat3col, cameraRotationMatrix,
      Vec3.mk.injEq]

/-- C2 (amended): the converter computes `right = up × lookAt` and assembles
the 3×3 matrix whose ROWS are `[right, up, lookAt]` (column `c` holds the
`c`-th components of right, up and lookAt) — the transpose of the matrix the
claim describes — and that matrix is what gets converted to the camera's
rotation quaternion. -/
theorem camera_basis_rows (camera : ACamera) :
    mat3row (cameraRotationMatrix camera) 0
        = vec3cross (vec3fromList camera.up) (vec3fromList camera.lookat)
    ∧ mat3row (cameraRotationMatrix camera) 1 = vec3fromList camera.up
    ∧ mat3row (cameraRotationMatrix camera) 2 = vec3fromList camera.lookat
    ∧ ∀ fromMat3 : List Rat → Quat,
        (loadSceneCamera fromMat3 camera).rotation
          = fromMat3 (cameraRotationMatrix camera) :=
  ⟨rfl, rfl, rfl, fun _ => rfl⟩

/-- Flattening a list of 3-element lists yields `3 ×` as many elements. -/
theorem flatten_length_all3 (l : List (List Nat))
    (h : ∀ f ∈ l, f.length = 3) : l.flatten.length = 3 * l.length := by
  induction l with
  | nil => simp
  | cons a t ih =>
    have ha : a.length = 3 := h a (List.mem_cons_self a t)
    have ht := ih fun f hf => h f (List.mem_cons_of_mem a hf)
    simp only [List.flatten_cons, List.length_append, List.length_cons, ha, ht]
    ring

/-- C5: for a mesh whose faces are all 3-element index groups, the produced
flat `indices` sequence is the concatenation of the face groups in face order
(within-face order preserved, no triangulation), and its length is exactly
`3 * faces.length`. -/
theorem mesh_indices_flatten (mesh : AMesh)
    (h : ∀ f ∈ mesh.faces, f.length = 3) :
    (loadSceneMesh mesh).indices = mesh.faces.flatten
    ∧ (loadSceneMesh mesh).indices.length = 3 * mesh.faces.length :=
  ⟨rfl, flatten_length_all3 mesh.faces h⟩

/-- C5 (witness input): a two-triangle quad mesh. -/
def meshQuadW : AMesh :=
  { name := "quad",
    vertices := [0, 0, 0, 1, 0, 0, 1, 1, 0, 0, 1, 0],
    normals := [0, 0, 1, 0, 0, 1, 0, 0, 1, 0, 0, 1],
    faces := [[0, 1, 2], [2, 3, 0]],
    materialindex := 0 }

/-- C5 witness: the two-triangle mesh flattens to six indices in face
order. -/
theorem mesh_indices_flatten_witness :
    (loadSceneMesh meshQuadW).indices = meshQuadW.faces.flatten
    ∧ (loadSceneMesh meshQuadW).indices.length = 3 * meshQuadW.faces.length :=
  mesh_indices_flatten meshQuadW (by decide)

/-- C6: a rotation key `[t, [w,x,y,z]]`, wherever it sits in the channel's
key list, produces the typed key at time `t` whose quaternion has components
in `(x, y, z, w)` order — `w` moves from first to last. -/
theorem rotation_key_reorder (nm : String) (pk sk : List (Rat × List Rat))
    (pre post : List (Rat × List Rat)) (t w x y z : Rat) :
    loadRotationKeys ⟨nm, pk, sk, pre ++ (t, [w, x, y, z]) :: post⟩
      = loadRotationKeys ⟨nm, pk, sk, pre⟩
        ++ TypedKey.mk t (Quat.mk x y z w)
          :: loadRotationKeys ⟨nm, pk, sk, post⟩ := by
  simp [loadRotationKeys]

/-- C7: a material lacking a `$clr.diffuse` property gets albedo `(1,1,1)`,
lacking `$mat.metallicFactor` gets metallic `0`, lacking
`$mat.roughnessFactor` gets roughness `0`; a present entry's value is used
instead (albedo from its first three components). -/
theorem material_defaulting (material : AMaterial) :
    ((∀ prop ∈ material.properties, prop.key ≠ "$clr.diffuse") →
      (loadSceneMaterial material).albedo = (JVal.num 1, JVal.num 1, JVal.num 1))
    ∧ ((∀ prop ∈ material.properties, prop.key ≠ "$mat.metallicFactor") →
      (loadSceneMaterial material).metallic = JVal.num 0)
    ∧ ((∀ prop ∈ material.properties, prop.key ≠ "$mat.roughnessFactor") →
      (loadSceneMaterial material).roughness = JVal.num 0)
    ∧ (∀ prop,
      material.properties.find? (fun p => p.key == "$clr.diffuse") = some prop →
      (loadSceneMaterial material).albedo
        = (prop.value.item 0, prop.value.item 1, prop.value.item 2))
    ∧ (∀ prop,
      material.properties.find? (fun p => p.key == "$mat.metallicFactor")
          = some prop →
      (loadSceneMaterial material).metallic = prop.value)
    ∧ (∀ prop,
      material.properties.find? (fun p => p.key == "$mat.roughnessFactor")
          = some prop →
      (loadSceneMaterial material).roughness = prop.value) := by
  have hnone : ∀ (k : String), (∀ prop ∈ material.properties, prop.key ≠ k) →
      material.properties.find? (fun p => p.key == k) = none := by
    intro k hk
    rw [List.find?_eq_none]
    intro p hp
    simp [hk p hp]
  refine ⟨fun h => ?_, fun h => ?_, fun h => ?_,
    fun prop hp => ?_, fun prop hp => ?_, fun prop hp => ?_⟩
  · simp [loadSceneMaterial, hnone _ h, JVal.item]
  · simp [loadSceneMaterial, hnone _ h]
  · simp [loadSceneMaterial, hnone _ h]
  · simp [loadSceneMaterial, hp]
  · simp [loadSceneMaterial, hp]
  · simp [loadSceneMaterial, hp]

/-- C7 (witness input): a material with no properties at all. -/
def matEmptyW : AMaterial := { properties := [] }

/-- C7 (witness input): a material with all three keyed properties
present. -/
def matFullW : AMaterial :=
  { properties :=
      [{ key := "$clr.diffuse", value := .arr [2, 3, 4, 5] },
       { key := "$mat.metallicFactor", value := .num 7 },
       { key := "$mat.roughnessFactor", value := .num 9 }] }

/-- C7 witness: defaults fire on the empty material; present values are used
on the full one. -/
theorem material_defaulting_witness :
    (loadSceneMaterial matEmptyW).albedo = (JVal.num 1, JVal.num 1, JVal.num 1)
    ∧ (loadSceneMaterial matEmptyW).metallic = JVal.num 0
    ∧ (loadSceneMaterial matEmptyW).roughness = JVal.num 0
    ∧ (loadSceneMaterial matFullW).albedo
        = (JVal.num 2, JVal.num 3, JVal.num 4)
    ∧ (loadSceneMaterial matFullW).metallic = JVal.num 7
    ∧ (loadSceneMaterial matFullW).roughness = JVal.num 9 :=
  ⟨(material_defaulting matEmptyW).1 (by decide),
   (material_defaulting matEmptyW).2.1 (by decide),
   (material_defaulting matEmptyW).2.2.1 (by decide),
   (material_defaulting matFullW).2.2.2.1
     { key := "$clr.diffuse", value := .arr [2, 3, 4, 5] } (by decide),
   (material_defaulting matFullW).2.2.2.2.1
     { key := "$mat.metallicFactor", value := .num 7 } (by decide),
   (material_defaulting matFullW).2.2.2.2.2
     { key := "$mat.roughnessFactor", value := .num 9 } (by decide)⟩

/-- A light-type code outside {1,2,3} makes `getLightType` throw. -/
theorem getLightType_of_bad (t : Nat) (h1 : t ≠ 1) (h2 : t ≠ 2) (h3 : t ≠ 3) :
    getLightType t = .error (.unknownLightType t) := by
  simp [getLightType, h1, h2, h3]

/-- A bad light aborts `loadSceneLight` with the thrown error. -/
theorem loadSceneLight_err (l : ALight) (h1 : l.type ≠ 1) (h2 : l.type ≠ 2)
    (h3 : l.type ≠ 3) :
    loadSceneLight l = .error (.unknownLightType l.type) := by
  unfold loadSceneLight
  rw [getLightType_of_bad l.type h1 h2 h3]
  rfl

/-- Each light either converts or throws `unknownLightType` for its own
out-of-range code. -/
theorem loadSceneLight_ok_or (l : ALight) :
    (∃ sl, loadSceneLight l = .ok sl)
    ∨ (loadSceneLight l = .error (.unknownLightType l.type)
        ∧ l.type ≠ 1 ∧ l.type ≠ 2 ∧ l.type ≠ 3) := by
  by_cases h1 : l.type = 1
  · left
    unfold loadSceneLight
    rw [show getLightType l.type = .ok .Directional by simp [getLightType, h1]]
    exact ⟨_, rfl⟩
  by_cases h2 : l.type = 2
  · left
    unfold loadSceneLight
    rw [show getLightType l.type = .ok .Point by simp [getLightType, h1, h2]]
    exact ⟨_, rfl⟩
  by_cases h3 : l.type = 3
  · left
    unfold loadSceneLight
    rw [show getLightType l.type = .ok .Spot by simp [getLightType, h1, h2, h3]]
    exact ⟨_, rfl⟩
  exact Or.inr ⟨loadSceneLight_err l h1 h2 h3, h1, h2, h3⟩

/-- Forcing the light walk with a bad light in the list ends in a thrown
`unknownLightType` error. -/
theorem mapM_lights_error (lights : List ALight) (l : ALight) (hl : l ∈ lights)
    (h1 : l.type ≠ 1) (h2 : l.type ≠ 2) (h3 : l.type ≠ 3) :
    ∃ c, lights.mapM loadSceneLight = .error (.unknownLightType c)
      ∧ c ≠ 1 ∧ c ≠ 2 ∧ c ≠ 3 := by
  induction lights with
  | nil => cases hl
  | cons a as ih =>
    rw [List.mapM_cons]
    rcases List.mem_cons.mp hl with rfl | hmem
    · refine ⟨l.type, ?_, h1, h2, h3⟩
      simp only [loadSceneLight_err l h1 h2 h3]
      rfl
    · rcases loadSceneLight_ok_or a with ⟨sl, hsl⟩ | ⟨herr, g1, g2, g3⟩
      · rcases ih hmem with ⟨c, hc, hcs⟩
        refine ⟨c, ?_, hcs⟩
        simp only [hsl, hc]
        rfl
      · refine ⟨a.type, ?_, g1, g2, g3⟩
        simp only [herr]
        rfl

/-- The whole light walk either succeeds or fails with some light's
out-of-range code. -/
theorem mapM_lights_cases (lights : List ALight) :
    (∃ sls, lights.mapM loadSceneLight = .ok sls)
    ∨ (∃ l, l ∈ lights
        ∧ lights.mapM loadSceneLight = .error (.unknownLightType l.type)
        ∧ l.type ≠ 1 ∧ l.type ≠ 2 ∧ l.type ≠ 3) := by
  induction lights with
  | nil => exact Or.inl ⟨[], rfl⟩
  | cons a as ih =>
    rcases loadSceneLight_ok_or a with ⟨sl, hsl⟩ | ⟨herr, g1, g2, g3⟩
    · rcases ih with ⟨sls, hsls⟩ | ⟨l, hl, herr2, gs⟩
      · refine Or.inl ⟨sl :: sls, ?_⟩
        rw [List.mapM_cons]
        simp only [hsl, hsls]
        rfl
      · refine Or.inr ⟨l, List.mem_cons_of_mem a hl, ?_, gs⟩
        rw [List.mapM_cons]
        simp only [hsl, herr2]
        rfl
    · refine Or.inr ⟨a, List.mem_cons_self a as, ?_, g1, g2, g3⟩
      rw [List.mapM_cons]
      simp only [herr]
      rfl

/-- Errors escaping the light walk are always `unknownLightType`. -/
theorem mapM_lights_error_shape (lights : List ALight) (e : ImportError)
    (h : lights.mapM loadSceneLight = .error e) :
    ∃ c, e = .unknownLightType c := by
  rcases mapM_lights_cases lights with ⟨sls, hok⟩ | ⟨l, _, herr, _⟩
  · rw [hok] at h
    cases h
  · rw [herr] at h
    injection h with h2
    exact ⟨l.type, h2.symm⟩

/-- The document walk as one case split on the light walk. -/
theorem loadSceneJson_eq (fromMat3 : List Rat → Quat) (json : AJson) :
    loadSceneJson fromMat3 json
      = match json.lights.mapM loadSceneLight with
        | .error e => .error e
        | .ok lights =>
          .ok { rootNode := loadSceneNode json.meshes json.rootnode,
                cameras := loadSceneCameras fromMat3 json,
                lights := lights,
                meshes := loadSceneMeshes json,
                materials := loadSceneMaterials json,
                animations := loadSceneAnimations json } := by
  unfold loadSceneJson loadSceneLights
  cases json.lights.mapM loadSceneLight <;> rfl

/-- Errors escaping the document walk are always `unknownLightType`. -/
theorem loadSceneJson_error_shape (fromMat3 : List Rat → Quat) (json : AJson)
    (e : ImportError) (h : loadSceneJson fromMat3 json = .error e) :
    ∃ c, e = .unknownLightType c := by
  rw [loadSceneJson_eq] at h
  cases hm : json.lights.mapM loadSceneLight with
  | error e2 =>
    rw [hm] at h
    have h2 : (Except.error e2 : Except ImportError Scene) = .error e := h
    injection h2 with h3
    exact h3 ▸ mapM_lights_error_shape json.lights e2 hm
  | ok lights =>
    rw [hm] at h
    exact absurd h (by simp)

/-- C3: light codes 1/2/3 map to Directional/Point/Spot; any other code
throws `UnknownLightTypeError`, and a document holding such a light makes the
whole walk return that error — no scene. -/
theorem light_type_mapping :
    getLightType 1 = .ok SceneLightType.Directional
    ∧ getLightType 2 = .ok SceneLightType.Point
    ∧ getLightType 3 = .ok SceneLightType.Spot
    ∧ (∀ t : Nat, t ≠ 1 → t ≠ 2 → t ≠ 3 →
        getLightType t = .error (.unknownLightType t))
    ∧ (∀ (fromMat3 : List Rat → Quat) (json : AJson) (l : ALight),
        l ∈ json.lights → l.type ≠ 1 → l.type ≠ 2 → l.type ≠ 3 →
        ∃ c, loadSceneJson fromMat3 json = .error (.unknownLightType c)
          ∧ c ≠ 1 ∧ c ≠ 2 ∧ c ≠ 3) := by
  refine ⟨rfl, rfl, rfl, getLightType_of_bad, ?_⟩
  intro fm json l hl h1 h2 h3
  rcases mapM_lights_error json.lights l hl h1 h2 h3 with ⟨c, hc, hcs⟩
  refine ⟨c, ?_, hcs⟩
  rw [loadSceneJson_eq, hc]

/-- C3 (witness input): a light with the unrecognized code 7. -/
def lightBadW : ALight :=
  { name := "l", type := 7, diffusecolor := [1, 1, 1],
    attenuationconstant := 1, angleinnercone := none, angleoutercone := none,
    attenuationlinear := 0, attenuationquadratic := 0 }

/-- C3 (witness input): a document holding only that light. -/
def jsonBadLightW : AJson :=
  { rootnode := .mk "root" [] [] [], cameras := [], lights := [lightBadW],
    meshes := [], materials := [], animations := [] }

/-- C3 witness: the document with the code-7 light converts to an
`unknownLightType` error. -/
theorem light_type_mapping_witness :
    getLightType 2 = .ok SceneLightType.Point
    ∧ ∃ c, loadSceneJson (fun _ => ⟨0, 0, 0, 1⟩) jsonBadLightW
        = .error (.unknownLightType c) ∧ c ≠ 1 ∧ c ≠ 2 ∧ c ≠ 3 :=
  ⟨light_type_mapping.2.1,
   light_type_mapping.2.2.2.2 (fun _ => ⟨0, 0, 0, 1⟩) jsonBadLightW lightBadW
     (by simp [jsonBadLightW]) (by decide) (by decide) (by decide)⟩

/-- Unfolding of `loadScene` as one case split on the parser boundary. -/
theorem loadScene_eq (fromMat3 : List Rat → Quat) (parseJson : List Nat → AJson)
    (result : AssimpResult) :
    loadScene fromMat3 parseJson result
      = match getAssimpJson parseJson result with
        | .error e => .error e
        | .ok json => loadSceneJson fromMat3 json := by
  unfold loadScene
  cases getAssimpJson parseJson result <;> rfl

/-- C4: `loadScene` throws `ConversionError` carrying the parser-supplied
error code exactly when the parser reports failure or returns zero output
files; otherwise the first output file is decoded and parsed as JSON, and no
`ConversionError` can arise — failure never returns a (partial) scene. -/
theorem conversion_error_iff (fromMat3 : List Rat → Quat)
    (parseJson : List Nat → AJson) (result : AssimpResult) :
    ((result.isSuccess = false ∨ result.files.length = 0) →
      loadScene fromMat3 parseJson result
        = .error (.conversionError result.errorCode))
    ∧ (∀ c, loadScene fromMat3 parseJson result = .error (.conversionError c) →
      (result.isSuccess = false ∨ result.files.length = 0)
        ∧ c = result.errorCode)
    ∧ (result.isSuccess = true → result.files.length ≠ 0 →
      getAssimpJson parseJson result
        = .ok (parseJson (result.files.getD 0 default).content)) := by
  have hcond : ((!result.isSuccess || result.files.length == 0) = true)
      ↔ (result.isSuccess = false ∨ result.files.length = 0) := by
    simp [Bool.or_eq_true, Bool.not_eq_true']
  refine ⟨?_, ?_, ?_⟩
  · intro h
    rw [loadScene_eq]
    unfold getAssimpJson
    rw [if_pos (hcond.mpr h)]
  · intro c hc
    rw [loadScene_eq] at hc
    by_cases hb : (!result.isSuccess || result.files.length == 0) = true
    · refine ⟨hcond.mp hb, ?_⟩
      unfold getAssimpJson at hc
      rw [if_pos hb] at hc
      have h2 : (Except.error (ImportError.conversionError result.errorCode)
          : Except ImportError Scene) = .error (.conversionError c) := hc
      injection h2 with h3
      injection h3 with h4
      exact h4.symm
    · exfalso
      unfold getAssimpJson at hc
      rw [if_neg hb] at hc
      have h2 : loadSceneJson fromMat3
          (parseJson (result.files.getD 0 default).content)
          = .error (.conversionError c) := hc
      rcases loadSceneJson_error_shape _ _ _ h2 with ⟨c2, hc2⟩
      cases hc2
  · intro hs hf
    unfold getAssimpJson
    rw [if_neg (by simp [hs, hf])]

/-- C4 (witness input): the parser reports failure with error code 7 and no
output files. -/
def resultFailW : AssimpResult := { isSuccess := false, errorCode := 7, files := [] }

/-- C4 witness: the failed parser run makes `loadScene` return the
`ConversionError` with code 7. -/
theorem conversion_error_iff_witness :
    loadScene (fun _ => ⟨0, 0, 0, 1⟩) (fun _ => default) resultFailW
      = .error (.conversionError resultFailW.errorCode) :=
  (conversion_error_iff (fun _ => ⟨0, 0, 0, 1⟩) (fun _ => default)
    resultFailW).1 (Or.inl rfl)

/-- C8: the `j`-th node-mesh pair of a loaded node carries the `j`-th mesh
index `i` listed by the source node, and its material index is looked up from
the mesh catalog entry `i` (`json.meshes[i].materialindex`), not from the node
entry itself. -/
theorem node_mesh_material_lookup (cat : List AMesh) (n : ANode) (j i : Nat)
    (hj : j < n.meshes.length) (hji : n.meshes.get ⟨j, hj⟩ = i)
    (hi : i < cat.length) :
    ∃ hj2 : j < (loadSceneNode cat n).meshes.length,
      ((loadSceneNode cat n).meshes.get ⟨j, hj2⟩).meshIndex = i
      ∧ ((loadSceneNode cat n).meshes.get ⟨j, hj2⟩).materialIndex
        = (cat.get ⟨i, hi⟩).materialindex := by
  obtain ⟨nm, tf, ms, cs⟩ := n
  rw [loadSceneNode_mk]
  have hj2 : j < ms.length := hj
  have hji2 : ms.get ⟨j, hj2⟩ = i := hji
  have hji3 : ms[j] = i := by simpa using hji2
  refine ⟨by simp only [SceneNode.meshes, List.length_map]; exact hj2, ?_, ?_⟩
  · simp [SceneNode.meshes, hji3]
  · simp [SceneNode.meshes, hji3, List.getElem?_eq_getElem hi]

/-- C8 (witness input): a catalog of two meshes with material indices 5
and 7. -/
def catW : List AMesh :=
  [{ name := "m0", vertices := [], normals := [], faces := [],
     materialindex := 5 },
   { name := "m1", vertices := [], normals := [], faces := [],
     materialindex := 7 }]

/-- C8 (witness input): a node referencing mesh 1 only. -/
def nodeW : ANode := .mk "n" [] [1] []

/-- C8 witness: the node's single pair gets mesh index 1 and material index 7
from the catalog. -/
theorem node_mesh_material_lookup_witness :
    ∃ hj2 : 0 < (loadSceneNode catW nodeW).meshes.length,
      ((loadSceneNode catW nodeW).meshes.get ⟨0, hj2⟩).meshIndex = 1
      ∧ ((loadSceneNode catW nodeW).meshes.get ⟨0, hj2⟩).materialIndex
        = (catW.get ⟨1, by decide⟩).materialindex :=
  node_mesh_material_lookup catW nodeW 0 1 (by decide) (by decide) (by decide)

/-- Replacing the value stored under `k` leaves lookups of other keys
unchanged. -/
theorem find?_map_replace_ne {α : Type} (k k2 : String) (v : α) (h : k ≠ k2)
    (t : List (String × α)) :
    (t.map fun p => if p.1 == k then (k, v) else p).find? (fun p => p.1 == k2)
      = t.find? (fun p => p.1 == k2) := by
  induction t with
  | nil => rfl
  | cons q r ih =>
    rw [List.map_cons]
    by_cases hq : q.1 = k
    · rw [show (if q.1 == k then (k, v) else q) = (k, v) by simp [hq],
        @List.find?_cons_of_neg _ (fun p => p.1 == k2) (k, v) _ (by simp [h]),
        @List.find?_cons_of_neg _ (fun p => p.1 == k2) q _ (by simp [hq, h]),
        ih]
    · rw [show (if q.1 == k then (k, v) else q) = q by simp [hq]]
      by_cases hq2 : q.1 = k2
      · rw [@List.find?_cons_of_pos _ (fun p => p.1 == k2) q _ (by simp [hq2]),
          @List.find?_cons_of_pos _ (fun p => p.1 == k2) q _ (by simp [hq2])]
      · rw [@List.find?_cons_of_neg _ (fun p => p.1 == k2) q _ (by simp [hq2]),
          @List.find?_cons_of_neg _ (fun p => p.1 == k2) q _ (by simp [hq2]),
          ih]

/-- Replacing the value stored under a present key makes lookups of that key
return the new value. -/
theorem find?_map_replace_eq {α : Type} (k : String) (v : α)
    (t : List (String × α)) (h : t.any (fun p => p.1 == k) = true) :
    (t.map fun p => if p.1 == k then (k, v) else p).find? (fun p => p.1 == k)
      = some (k, v) := by
  induction t with
  | nil => cases h
  | cons q r ih =>
    rw [List.map_cons]
    by_cases hq : q.1 = k
    · rw [show (if q.1 == k then (k, v) else q) = (k, v) by simp [hq],
        @List.find?_cons_of_pos _ (fun p => p.1 == k) (k, v) _ (by simp)]
    · have h2 : r.any (fun p => p.1 == k) = true := by simpa [hq] using h
      rw [show (if q.1 == k then (k, v) else q) = q by simp [hq],
        @List.find?_cons_of_neg _ (fun p => p.1 == k) q _ (by simp [hq]),
        ih h2]

/-- Reading after `set` on the JS-Map model: the set key reads back the new
value, every other key is untouched. -/
theorem mapGet_mapSet {α : Type} (m : List (String × α)) (k k2 : String)
    (v : α) :
    mapGet (mapSet m k v) k2 = if k = k2 then some v else mapGet m k2 := by
  unfold mapSet mapGet
  by_cases hany : m.any (fun p => p.1 == k) = true
  · rw [if_pos hany]
    by_cases hk : k = k2
    · subst hk
      rw [if_pos rfl, find?_map_replace_eq k v m hany]
      rfl
    · rw [if_neg hk, find?_map_replace_ne k k2 v hk m]
  · rw [if_neg hany, List.find?_append]
    have hnone : m.find? (fun p => p.1 == k) = none := by
      rw [List.find?_eq_none]
      intro p hp hcon
      exact hany (List.any_eq_true.mpr ⟨p, hp, hcon⟩)
    by_cases hk : k = k2
    · subst hk
      rw [if_pos rfl, hnone]
      simp
    · rw [if_neg hk]
      have h2 : ([(k, v)].find? fun p => p.1 == k2) = none := by simp [hk]
      rw [h2]
      simp

/-- Looking up the map built by the constructor's `set` loop finds the LAST
record with the queried name (later `set`s overwrite earlier ones). -/
theorem buildMap_get (k : String) (nas : List NodeAnimation) :
    ∀ init : List (String × NodeAnimation),
      mapGet (nas.foldl (fun m na => mapSet m na.name na) init) k
        = (nas.reverse.find? (fun na => na.name == k)).or (mapGet init k) := by
  induction nas with
  | nil =>
    intro init
    simp
  | cons na rest ih =>
    intro init
    rw [List.foldl_cons, ih (mapSet init na.name na),
      mapGet_mapSet init na.name k na, List.reverse_cons, List.find?_append]
    cases hfind : rest.reverse.find? (fun x => x.name == k) with
    | some x => simp
    | none =>
      by_cases hk : na.name = k <;> simp [hk]

/-- The lookup `getNodeAnimation` is exactly "last record with that name, else none". -/
theorem getNodeAnimation_eq (anm : String) (dur tps : Rat)
    (nas : List NodeAnimation) (s : String) :
    getNodeAnimation (mkAssimpSceneAnimation anm dur tps nas) s
      = nas.reverse.find? (fun na => na.name == s) := by
  unfold getNodeAnimation mkAssimpSceneAnimation
  rw [buildMap_get s nas []]
  simp [mapGet]

/-- In a list with pairwise-distinct names, `find?` by a member's name
returns exactly that member. -/
theorem find?_name_unique (l : List NodeAnimation) (na : NodeAnimation)
    (h : na ∈ l) (hd : l.Pairwise (fun a b => a.name ≠ b.name)) :
    l.find? (fun x => x.name == na.name) = some na := by
  induction l with
  | nil => cases h
  | cons q r ih =>
    rcases List.mem_cons.mp h with rfl | hmem
    · simp
    · have hq : q.name ≠ na.name := (List.pairwise_cons.mp hd).1 na hmem
      exact (by simp [hq, ih hmem (List.pairwise_cons.mp hd).2])

/-- C9: with pairwise-distinct node-animation names, `getNodeAnimation`
returns exactly the record whose name is queried, and `none` for any name no
record carries; the lookup is the pure map built once by the constructor. -/
theorem animation_lookup_distinct (anm : String) (dur tps : Rat)
    (nas : List NodeAnimation)
    (hd : nas.Pairwise (fun a b => a.name ≠ b.name)) :
    (∀ na ∈ nas,
      getNodeAnimation (mkAssimpSceneAnimation anm dur tps nas) na.name
        = some na)
    ∧ ∀ s : String, (∀ na ∈ nas, na.name ≠ s) →
      getNodeAnimation (mkAssimpSceneAnimation anm dur tps nas) s = none := by
  constructor
  · intro na hna
    rw [getNodeAnimation_eq]
    have hd2 : nas.reverse.Pairwise (fun a b => a.name ≠ b.name) := by
      rw [List.pairwise_reverse]
      exact hd.imp Ne.symm
    exact find?_name_unique nas.reverse na (List.mem_reverse.mpr hna) hd2
  · intro s hs
    rw [getNodeAnimation_eq, List.find?_eq_none]
    intro x hx
    simp [hs x (List.mem_reverse.mp hx)]

/-- C9 (witness input): the "Arm" node-animation. -/
def armW : NodeAnimation :=
  { name := "Arm", positionKeys := [], scaleKeys := [], rotationKeys := [] }

/-- C9 (witness input): the "Leg" node-animation. -/
def legW : NodeAnimation :=
  { name := "Leg", positionKeys := [], scaleKeys := [], rotationKeys := [] }

/-- C9 witness: querying "Arm" on `["Arm","Leg"]` returns the Arm record;
querying "Head" returns none. -/
theorem animation_lookup_distinct_witness :
    getNodeAnimation (mkAssimpSceneAnimation "anim" 10 24 [armW, legW]) "Arm"
      = some armW
    ∧ getNodeAnimation (mkAssimpSceneAnimation "anim" 10 24 [armW, legW]) "Head"
      = none :=
  ⟨(animation_lookup_distinct "anim" 10 24 [armW, legW] (by decide)).1 armW
     (by decide),
   (animation_lookup_distinct "anim" 10 24 [armW, legW] (by decide)).2 "Head"
     (by decide)⟩

/-- C10: when a node-animation record is followed only by records with other
names, `getNodeAnimation` of its name returns it — so with duplicate names
the record occurring last in the sequence wins. -/
theorem animation_lookup_last_wins (anm : String) (dur tps : Rat)
    (l1 l2 : List NodeAnimation) (na : NodeAnimation)
    (h : ∀ x ∈ l2, x.name ≠ na.name) :
    getNodeAnimation (mkAssimpSceneAnimation anm dur tps (l1 ++ na :: l2))
      na.name = some na := by
  rw [getNodeAnimation_eq, List.reverse_append, List.reverse_cons,
    List.find?_append, List.find?_append]
  have h2 : l2.reverse.find? (fun x => x.name == na.name) = none := by
    rw [List.find?_eq_none]
    intro x hx
    simp [h x (List.mem_reverse.mp hx)]
  rw [h2]
  simp

/-- C10 (witness input): first record named "Arm". -/
def armV1W : NodeAnimation :=
  { name := "Arm", positionKeys := [{ time := 0, value := ⟨0, 0, 0⟩ }],
    scaleKeys := [], rotationKeys := [] }

/-- C10 (witness input): second record, same name "Arm". -/
def armV2W : NodeAnimation :=
  { name := "Arm", positionKeys := [{ time := 1, value := ⟨1, 1, 1⟩ }],
    scaleKeys := [], rotationKeys := [] }

/-- C10 witness: with two records both named "Arm", the second (last) one is
returned. -/
theorem animation_lookup_last_wins_witness :
    getNodeAnimation (mkAssimpSceneAnimation "anim" 10 24 [armV1W, armV2W])
      "Arm" = some armV2W :=
  animation_lookup_last_wins "anim" 10 24 [armV1W] [] armV2W (by decide)

end PolyAssimp
